import Mathlib

/-
Verification of the 3D portfolio's section/camera/object synchronization core.

The JavaScript sources are shallowly embedded:
  * `src/src/scripts/PortfolioObjects.js`  — object construction, visibility
    transitions (`updateActiveSection`) and the per-frame animator (`update`).
  * `src/src/scripts/CameraController.js`  — `CameraController` (poses,
    `moveToSection`, parallax `update`) and `InteractionManager` (normalized
    pointer, raycast candidate selection, hover/click/ripple handling).
  * the main entry point (`Portfolio3D`)   — coordinator state,
    `navigateToSection`, the wheel debounce handler.

Modeling conventions:
  * JS numbers are modeled as `ℝ` where trigonometry occurs and as `ℚ` where
    the code compares clock values (wheel debounce, ripple lifetime), keeping
    those parts decidable.
  * A gsap tween (`gsap.to`) is modeled by its run-to-completion effect; when
    several tweens target the same property, the one created last wins, which
    is gsap's rendering order for tweens created in the same handler.
  * A JS runtime exception (TypeError) is modeled by a `Bool` flag returned
    next to the mutated state: mutations made before the throw persist.
  * `userData` fields are `Option` values (`none` = the property is absent).
-/

noncomputable section

namespace Portfolio

/-- A 3-component vector, the embedding of `THREE.Vector3` / `THREE.Euler`. -/
structure Vec3 where
  x : ℝ
  y : ℝ
  z : ℝ

/-- A renderable object (`THREE.Mesh` / `THREE.Line` / `THREE.LineSegments`).
`emissiveIntensity` is `none` when the material has no such property
(`MeshBasicMaterial`, `LineBasicMaterial`); `MeshStandardMaterial` defaults it
to 1 when the constructor does not set it.  The `Option` fields after
`originalEmissiveIntensity` embed the ad-hoc `userData` animation tags. -/
structure Obj where
  position : Vec3 := ⟨0, 0, 0⟩
  rotation : Vec3 := ⟨0, 0, 0⟩
  scale : Vec3 := ⟨1, 1, 1⟩
  emissiveIntensity : Option ℝ := none
  originalEmissiveIntensity : Option ℝ := none
  angle : Option ℝ := none
  radius : Option ℝ := none
  speed : Option ℝ := none
  orbitTag : Option ℕ := none
  floatOffset : Option ℝ := none
  hoverY : Option ℝ := none
  delay : Option ℝ := none
  initialScale : Option ℝ := none

/-- Hero: the central torus (`createHeroSection`, MeshStandardMaterial with
`emissiveIntensity: 0.3`). -/
def heroTorus : Obj :=
  { position := ⟨0, 0, 0⟩, emissiveIntensity := some 0.3 }

/-- Hero: orbiting sphere `i` (0 ≤ i < 8): `angle = (i/8)·π·2`, `radius = 5`,
`position.x = cos(angle)·radius`, `position.z = sin(angle)·radius`,
`userData.angle`/`userData.radius` stored. -/
def heroSphere (i : ℕ) : Obj :=
  { position := ⟨Real.cos ((i : ℝ) / 8 * Real.pi * 2) * 5, 0,
                 Real.sin ((i : ℝ) / 8 * Real.pi * 2) * 5⟩
    emissiveIntensity := some 0.5
    angle := some ((i : ℝ) / 8 * Real.pi * 2)
    radius := some 5 }

/-- Hero: the wireframe pyramid (`MeshBasicMaterial`, so no emissive
intensity property). -/
def heroPyramid : Obj :=
  { position := ⟨0, 0, -5⟩ }

/-- Hero object list, in `this.objects.hero` push order: torus, the eight
spheres, the pyramid. -/
def heroObjs : List Obj :=
  [heroTorus] ++ (List.range 8).map heroSphere ++ [heroPyramid]

/-- The `cubePositions` table of `createAboutSection`. -/
def aboutCubePos : ℕ → Vec3
  | 0 => ⟨-10, 2, -2⟩
  | 1 => ⟨-8, 0, 0⟩
  | _ => ⟨-10, -2, -2⟩

/-- About: wireframe cube `index` (`LineSegments` with `LineBasicMaterial`,
no emissive intensity; `userData.floatOffset = index·0.5`). -/
def aboutCube (index : ℕ) : Obj :=
  { position := aboutCubePos index, floatOffset := some ((index : ℝ) * 0.5) }

/-- About: transparent solid cube `index` (`MeshStandardMaterial`; the
constructor omits `emissiveIntensity`, whose three.js default is 1). -/
def aboutSolidCube (index : ℕ) : Obj :=
  { position := aboutCubePos index
    emissiveIntensity := some 1
    floatOffset := some ((index : ℝ) * 0.5) }

/-- About: the DNA helix (`THREE.Line`, `LineBasicMaterial`). -/
def aboutHelix : Obj := { position := ⟨0, 0, 0⟩ }

/-- About object list in push order: for each of the three positions the line
cube then the solid cube, then the helix. -/
def aboutObjs : List Obj :=
  [aboutCube 0, aboutSolidCube 0, aboutCube 1, aboutSolidCube 1,
   aboutCube 2, aboutSolidCube 2, aboutHelix]

/-- The `cardPositions` table of `createProjectsSection`. -/
def projectCardPos : ℕ → Vec3
  | 0 => ⟨6, 2, -2⟩
  | 1 => ⟨8, 0, 0⟩
  | _ => ⟨6, -2, -2⟩

/-- Projects: card `index` (`emissiveIntensity: 0.2`,
`rotation.y = -π/6`, `userData.hoverY = pos.y`). -/
def projectCard (index : ℕ) : Obj :=
  { position := projectCardPos index
    rotation := ⟨0, -(Real.pi / 6), 0⟩
    emissiveIntensity := some 0.2
    hoverY := some (projectCardPos index).y }

/-- Projects: the white edge frame of card `index` (`LineBasicMaterial`). -/
def projectFrame (index : ℕ) : Obj :=
  { position := projectCardPos index
    rotation := ⟨0, -(Real.pi / 6), 0⟩ }

/-- Projects: the connecting network line segments (`LineBasicMaterial`). -/
def projectNetwork : Obj := { position := ⟨0, 0, 0⟩ }

/-- Projects object list in push order: card/frame pairs then the network. -/
def projectsObjs : List Obj :=
  [projectCard 0, projectFrame 0, projectCard 1, projectFrame 1,
   projectCard 2, projectFrame 2, projectNetwork]

/-- Skills: orb `i` of ring `orbit` (`createSkillsSection`):
`radius = 3 + orbit·1.5`, `count = 4 + orbit·2`, `angle = (i/count)·π·2`,
`speed = 0.5 + orbit·0.2`, position on the ring with `y = 3 + sin(angle)·0.5`. -/
def skillOrb (orbit i : ℕ) : Obj :=
  { position := ⟨Real.cos ((i : ℝ) / (4 + (orbit : ℝ) * 2) * Real.pi * 2)
                   * (3 + (orbit : ℝ) * 1.5),
                 3 + Real.sin ((i : ℝ) / (4 + (orbit : ℝ) * 2) * Real.pi * 2) * 0.5,
                 Real.sin ((i : ℝ) / (4 + (orbit : ℝ) * 2) * Real.pi * 2)
                   * (3 + (orbit : ℝ) * 1.5)⟩
    emissiveIntensity := some 0.5
    angle := some ((i : ℝ) / (4 + (orbit : ℝ) * 2) * Real.pi * 2)
    radius := some (3 + (orbit : ℝ) * 1.5)
    speed := some (0.5 + (orbit : ℝ) * 0.2)
    orbitTag := some orbit }

/-- Skills: the central octahedron core (`emissiveIntensity: 0.5`). -/
def skillCore : Obj :=
  { position := ⟨0, 3, 0⟩, emissiveIntensity := some 0.5 }

/-- Skills object list: the three orbital rings (counts 4, 6, 8 — the loop
`for orbit in 0..2` with `count = 4 + orbit·2`, unrolled) then the core. -/
def skillsObjs : List Obj :=
  (List.range 4).map (skillOrb 0) ++ (List.range 6).map (skillOrb 1) ++
    (List.range 8).map (skillOrb 2) ++ [skillCore]

/-- Contact: wave ring `i` (`MeshBasicMaterial`, no emissive intensity;
`userData.delay = i·0.2`, `userData.initialScale = 1`,
position `(0,-3,0)`, `rotation.x = π/2`). -/
def contactRing (i : ℕ) : Obj :=
  { position := ⟨0, -3, 0⟩
    rotation := ⟨Real.pi / 2, 0, 0⟩
    delay := some ((i : ℝ) * 0.2)
    initialScale := some 1 }

/-- Contact: the envelope box (`emissiveIntensity: 0.3`). -/
def contactEnvelope : Obj :=
  { position := ⟨0, -3, 0⟩, emissiveIntensity := some 0.3 }

/-- Contact object list: the five rings then the envelope. -/
def contactObjs : List Obj :=
  (List.range 5).map contactRing ++ [contactEnvelope]

/-- The state of `PortfolioObjects`: the five per-section object lists and its
own `currentSection` field (initialized 0 in the constructor). -/
structure ObjectsState where
  hero : List Obj
  about : List Obj
  projects : List Obj
  skills : List Obj
  contact : List Obj
  currentSection : Int

/-- The `PortfolioObjects` state right after `createAllSections()`: all five
creation methods have run, `currentSection` still 0. -/
def initialObjects : ObjectsState :=
  { hero := heroObjs, about := aboutObjs, projects := projectsObjs,
    skills := skillsObjs, contact := contactObjs, currentSection := 0 }

/-- JS array lookup `this.objects[sectionNames[i]]`: `sectionNames[i]` is
`undefined` outside 0–4, and indexing with it yields `undefined` (`none`). -/
def sectionListGet (s : ObjectsState) (i : Int) : Option (List Obj) :=
  if i = 0 then some s.hero
  else if i = 1 then some s.about
  else if i = 2 then some s.projects
  else if i = 3 then some s.skills
  else if i = 4 then some s.contact
  else none

/-- Apply `f` to every object of section `i` (identity for other sections and
for out-of-range `i`). -/
def mapSection (s : ObjectsState) (i : Int) (f : Obj → Obj) : ObjectsState :=
  if i = 0 then { s with hero := s.hero.map f }
  else if i = 1 then { s with about := s.about.map f }
  else if i = 2 then { s with projects := s.projects.map f }
  else if i = 3 then { s with skills := s.skills.map f }
  else if i = 4 then { s with contact := s.contact.map f }
  else s

/-- Completed effect of the hide tween `gsap.to(obj.scale, {x:0,y:0,z:0,...})`. -/
def hideObj (o : Obj) : Obj := { o with scale := ⟨0, 0, 0⟩ }

/-- Completed effect of the show tween `gsap.to(obj.scale, {x:1,y:1,z:1,...})`
(the stagger `delay: index·0.05` only affects timing, not the end state). -/
def showObj (o : Obj) : Obj := { o with scale := ⟨1, 1, 1⟩ }

/-- The `Object.values(this.objects).flat().forEach` hide pass of
`updateActiveSection`, at tween completion: every object of every section is
scaled to zero. -/
def hideAll (s : ObjectsState) : ObjectsState :=
  { s with hero := s.hero.map hideObj, about := s.about.map hideObj,
           projects := s.projects.map hideObj, skills := s.skills.map hideObj,
           contact := s.contact.map hideObj }

/-- `PortfolioObjects.updateActiveSection(sectionIndex)`, with gsap tweens
taken at completion.  It first sets `this.currentSection`, then issues the
hide tween for every object, then looks up
`this.objects[sectionNames[sectionIndex]]`.  For a valid index the show
tweens (created after the hide tweens, hence winning on the shared scale
properties) bring the active section to scale 1.  For an out-of-range index
`currentObjects` is `undefined` and `currentObjects.forEach` throws a
TypeError (`Bool` result `true`); the mutations already made persist. -/
def updateActiveSection (s : ObjectsState) (i : Int) : ObjectsState × Bool :=
  let s1 : ObjectsState := { hideAll s with currentSection := i }
  match sectionListGet s1 i with
  | some _ => (mapSection s1 i showObj, false)
  | none => (s1, true)

/-- A per-section camera pose from the `sectionPositions` table of
`CameraController`. -/
structure CameraPose where
  pos : Vec3
  lookAt : Vec3

/-- The `sectionPositions` table: Home, About, Projects, Skills, Contact. -/
def sectionPositions : List CameraPose :=
  [⟨⟨0, 0, 15⟩, ⟨0, 0, 0⟩⟩,
   ⟨⟨-8, 2, 12⟩, ⟨-8, 0, 0⟩⟩,
   ⟨⟨8, -2, 12⟩, ⟨8, 0, 0⟩⟩,
   ⟨⟨0, 5, 10⟩, ⟨0, 3, 0⟩⟩,
   ⟨⟨0, -3, 13⟩, ⟨0, -3, 0⟩⟩]

/-- `this.sectionPositions[sectionIndex]` — `undefined` outside 0–4. -/
def posesGet (i : Int) : Option CameraPose :=
  if 0 ≤ i then sectionPositions[i.toNat]? else none

/-- Live camera state: position, the animatable look-at target
(`this.targetPosition`, initialized to `(0,0,15)` in the constructor), and the
latest normalized pointer coordinates used for parallax. -/
structure CameraState where
  position : Vec3
  targetPosition : Vec3
  mousePosX : ℝ
  mousePosY : ℝ

/-- Camera state after `setupCamera` (`camera.position.set(0,0,15)`) and the
`CameraController` constructor. -/
def initialCamera : CameraState :=
  { position := ⟨0, 0, 15⟩, targetPosition := ⟨0, 0, 15⟩,
    mousePosX := 0, mousePosY := 0 }

/-- `CameraController.moveToSection(sectionIndex)`, with the two 1.5s gsap
tweens taken at completion: position reaches the pose and the look-at target
reaches the pose's `lookAt`.  An out-of-range index hits the
`if (!position) return` guard and is a no-op. -/
def moveToSection (c : CameraState) (i : Int) : CameraState :=
  match posesGet i with
  | none => c
  | some p => { c with position := p.pos, targetPosition := p.lookAt }

/-- `CameraController.update(deltaTime)`: the pointer-parallax nudge.
`targetX = position.x + mousePosX·0.01` (parallaxStrength) and
`position.x += (targetX − position.x)·0.05`, same for `y`; the camera is then
oriented toward `targetPosition` (orientation is derived state, so the pose is
`(position, targetPosition)`).  `deltaTime` is unused by the body. -/
def cameraUpdate (c : CameraState) : CameraState :=
  let targetX := c.position.x + c.mousePosX * 0.01
  let targetY := c.position.y + c.mousePosY * 0.01
  { c with position := ⟨c.position.x + (targetX - c.position.x) * 0.05,
                        c.position.y + (targetY - c.position.y) * 0.05,
                        c.position.z⟩ }

/-- Normalized device coordinates computed by `InteractionManager.onMouseMove`
/ `onTouchStart` / `CameraController.handleMouseMove`:
`x = (clientX / innerWidth)·2 − 1`, `y = −(clientY / innerHeight)·2 + 1`.
The code applies no clamping. -/
def normalizedMouse (clientX clientY innerWidth innerHeight : ℝ) : ℝ × ℝ :=
  (clientX / innerWidth * 2 - 1, -(clientY / innerHeight) * 2 + 1)

/-- The candidate list handed to `raycaster.intersectObjects` by
`InteractionManager.checkIntersections`: the objects of
`this.portfolioObjects.objects[sectionNames[currentSection]]` only.  The
geometric intersection itself is abstracted away; the claims concern only
which list is searched. -/
def checkIntersectionTargets (o : ObjectsState) : Option (List Obj) :=
  sectionListGet o o.currentSection

/-- Per-frame `update` of `PortfolioObjects`, hero branch (forEach with
index): index 0 rotates the torus, indices 1–8 recompute the orbit position
absolutely from `userData.angle`, the pyramid spins. -/
def updateHeroObj (elapsed : ℝ) (index : ℕ) (o : Obj) : Obj :=
  if index = 0 then
    { o with rotation := ⟨elapsed * 0.3, elapsed * 0.5, o.rotation.z⟩ }
  else if index ≤ 8 then
    { o with position :=
        ⟨Real.cos (o.angle.getD 0 + elapsed * 0.5) * o.radius.getD 0,
         Real.sin (elapsed * 0.5 + (index : ℝ)) * 0.5,
         Real.sin (o.angle.getD 0 + elapsed * 0.5) * o.radius.getD 0⟩ }
  else
    { o with rotation := ⟨o.rotation.x, elapsed * 0.3, o.rotation.z⟩ }

/-- Per-frame `update`, about branch: float-tagged objects accumulate
`position.y += sin(elapsed·2 + floatOffset)·0.002` (cumulative) and rotate;
the helix spins on `z`. -/
def updateAboutObj (elapsed : ℝ) (o : Obj) : Obj :=
  match o.floatOffset with
  | some off =>
      { o with
        position := ⟨o.position.x, o.position.y + Real.sin (elapsed * 2 + off) * 0.002,
                     o.position.z⟩
        rotation := ⟨elapsed * 0.5, elapsed * 0.3, o.rotation.z⟩ }
  | none => { o with rotation := ⟨o.rotation.x, o.rotation.y, elapsed * 0.2⟩ }

/-- Per-frame `update`, projects branch: hover-bob
`position.y = hoverY + sin(elapsed·2)·0.1` (absolute). -/
def updateProjectsObj (elapsed : ℝ) (o : Obj) : Obj :=
  match o.hoverY with
  | some hy =>
      { o with position := ⟨o.position.x, hy + Real.sin (elapsed * 2) * 0.1,
                            o.position.z⟩ }
  | none => o

/-- Per-frame `update`, skills branch: orbit-tagged orbs recompute `x`/`z`
absolutely from `userData.angle + elapsed·speed` (`y` untouched); the core
spins. -/
def updateSkillsObj (elapsed : ℝ) (o : Obj) : Obj :=
  match o.orbitTag with
  | some _ =>
      { o with
        position := ⟨Real.cos (o.angle.getD 0 + elapsed * o.speed.getD 0) * o.radius.getD 0,
                     o.position.y,
                     Real.sin (o.angle.getD 0 + elapsed * o.speed.getD 0) * o.radius.getD 0⟩
        rotation := ⟨o.rotation.x, elapsed * 2, o.rotation.z⟩ }
  | none => { o with rotation := ⟨elapsed * 0.5, elapsed * 0.7, o.rotation.z⟩ }

/-- Per-frame `update`, contact branch: delay-tagged rings get
`scale.set(s,s,s)` with `s = 1 + sin(elapsed·2 − delay)·0.2` — every frame,
regardless of which section is active; the envelope bobs and sways. -/
def updateContactObj (elapsed : ℝ) (o : Obj) : Obj :=
  match o.delay with
  | some d =>
      { o with scale := ⟨1 + Real.sin (elapsed * 2 - d) * 0.2,
                         1 + Real.sin (elapsed * 2 - d) * 0.2,
                         1 + Real.sin (elapsed * 2 - d) * 0.2⟩ }
  | none =>
      { o with rotation := ⟨o.rotation.x, Real.sin elapsed * 0.2, o.rotation.z⟩
               position := ⟨o.position.x, -3 + Real.sin (elapsed * 2) * 0.1,
                            o.position.z⟩ }

/-- `forEach` with an index argument, as used by the hero branch. -/
def mapWithIndex (f : ℕ → Obj → Obj) : List Obj → List Obj
  | [] => []
  | a :: l => f 0 a :: mapWithIndex (fun i b => f (i + 1) b) l

/-- `PortfolioObjects.update(elapsedTime, deltaTime)`: every section animates
every frame, active or not (`deltaTime` is unused by the body). -/
def objectsUpdate (elapsed _delta : ℝ) (s : ObjectsState) : ObjectsState :=
  { s with hero := mapWithIndex (updateHeroObj elapsed) s.hero,
           about := s.about.map (updateAboutObj elapsed),
           projects := s.projects.map (updateProjectsObj elapsed),
           skills := s.skills.map (updateSkillsObj elapsed),
           contact := s.contact.map (updateContactObj elapsed) }

/-- The coordinator (`Portfolio3D`) state: its own `currentSection`, the
page-markup active flags of the five `.content-section` elements, the camera,
and the objects. -/
structure AppState where
  currentSection : Int
  markupActive : List Bool
  camera : CameraState
  objs : ObjectsState

/-- Modelled from the spec: the page markup (`index.html`, not under `src/`)
exposes five `.content-section` elements whose `active` class mirrors the
coordinator state; none of the verified claims depends on the initial classes,
which are taken to be all inactive. -/
def initialMarkup : List Bool :=
  [false, false, false, false, false]

/-- `Portfolio3D` state after `init()` has run `createAllSections`:
`currentSection = 0`, camera as constructed, no navigation yet. -/
def initApp : AppState :=
  { currentSection := 0, markupActive := initialMarkup,
    camera := initialCamera, objs := initialObjects }

/-- The `sections.forEach` loop of `navigateToSection`: element `j` gets the
`active` class iff `j === sectionIndex`. -/
def updateMarkup (i : Int) : List Bool :=
  (List.range 5).map (fun j => (j : Int) == i)

/-- `Portfolio3D.navigateToSection(sectionIndex)`.  A request for the current
section returns immediately.  Otherwise, in source order: set
`this.currentSection`, update the markup flags, call
`cameraController.moveToSection` and `portfolioObjects.updateActiveSection`.
The `Bool` is `true` when `updateActiveSection` threw (out-of-range index);
mutations made before the throw persist. -/
def navigateToSection (s : AppState) (i : Int) : AppState × Bool :=
  if i = s.currentSection then (s, false)
  else
    let s1 : AppState :=
      { s with currentSection := i, markupActive := updateMarkup i,
               camera := moveToSection s.camera i }
    let r := updateActiveSection s1.objs i
    ({ s1 with objs := r.1 }, r.2)

/-- One animation frame of `Portfolio3D.animate`: `portfolioObjects.update`
then `cameraController.update` (the interaction raycast mutates only
hover/ripple state, modeled separately). -/
def appFrame (elapsed delta : ℝ) (s : AppState) : AppState :=
  { s with objs := objectsUpdate elapsed delta s.objs,
           camera := cameraUpdate s.camera }

/-- Run the frame loop over a list of `(elapsedTime, deltaTime)` samples. -/
def runFrames (frames : List (ℝ × ℝ)) (s : AppState) : AppState :=
  frames.foldl (fun st td => appFrame td.1 td.2 st) s

/-- JS `x || 0` on `material.emissiveIntensity`: an absent property and the
falsy number 0 both give 0. -/
def jsOrZero : Option ℝ → ℝ
  | some v => if v = 0 then 0 else v
  | none => 0

/-- Replace the element at index `i` (identity out of range): the effect of
mutating one object of the store through a reference. -/
def modifyAt : List Obj → ℕ → (Obj → Obj) → List Obj
  | [], _, _ => []
  | a :: l, 0, f => f a :: l
  | a :: l, n + 1, f => a :: modifyAt l n f

/-- `InteractionManager` hover state over an object store: the index of the
hovered object (`this.hoveredObject`, a reference, `none` = `null`). -/
structure HoverState where
  objs : List Obj
  hovered : Option ℕ

/-- The highlight half of `handleObjectHover` on the target object:
`userData.originalEmissiveIntensity = material.emissiveIntensity || 0`, then
`material.emissiveIntensity = 1` — but only if the material has an
`emissiveIntensity` property at all. -/
def highlightObj (o : Obj) : Obj :=
  let o1 : Obj := { o with originalEmissiveIntensity := some (jsOrZero o.emissiveIntensity) }
  if o1.emissiveIntensity.isSome then { o1 with emissiveIntensity := some 1 } else o1

/-- The restore half of `clearHover` on the previously hovered object:
if `userData.originalEmissiveIntensity !== undefined`, assign it back to
`material.emissiveIntensity` (every primitive in this scene has a material,
so the `material &&` guard is always satisfied). -/
def restoreObj (o : Obj) : Obj :=
  if o.originalEmissiveIntensity.isSome
  then { o with emissiveIntensity := o.originalEmissiveIntensity }
  else o

/-- `InteractionManager.clearHover`: restore the hovered object's emissive
intensity snapshot and drop the reference (the cursor change is DOM-only). -/
def clearHover (s : HoverState) : HoverState :=
  match s.hovered with
  | none => s
  | some i => { objs := modifyAt s.objs i restoreObj, hovered := none }

/-- `InteractionManager.handleObjectHover(object)`: a re-hover of the same
object is a no-op; otherwise clear the previous hover, store the reference,
snapshot and highlight the target. -/
def handleObjectHover (s : HoverState) (i : ℕ) : HoverState :=
  if s.hovered = some i then s
  else
    let s1 := clearHover s
    { objs := modifyAt s1.objs i highlightObj, hovered := some i }

/-- The ripple mesh of `InteractionManager.createRipple`: `RingGeometry` plus
`MeshBasicMaterial`, scale 1, opacity 1, added to the scene; tracked with its
disposal flags. -/
structure RippleState where
  position : Vec3
  scaleX : ℚ
  scaleY : ℚ
  scaleZ : ℚ
  opacity : ℚ
  inScene : Bool
  geometryDisposed : Bool
  materialDisposed : Bool

/-- `createRipple(position)` before the first animation frame. -/
def createRipple (p : Vec3) : RippleState :=
  { position := p, scaleX := 1, scaleY := 1, scaleZ := 1, opacity := 1,
    inScene := true, geometryDisposed := false, materialDisposed := false }

/-- The ripple spawned by `handleObjectClick(object)`:
`createRipple(object.position)` — the clicked primitive's position. -/
def clickRipple (o : Obj) : RippleState := createRipple o.position

/-- Live geometry/material resources held by a ripple. -/
def rippleResources (r : RippleState) : ℕ :=
  (if r.geometryDisposed then 0 else 1) + (if r.materialDisposed then 0 else 1)

/-- The `animateRipple` `requestAnimationFrame` loop, driven by wall-clock
times (`Date.now()`): `progress = (now − startTime) / 1000`; while
`progress < 1` the ring expands and fades and another frame is requested;
otherwise the ripple is removed from the scene and both its geometry and
material are disposed, and the loop stops (remaining frame times unused). -/
def animateRipple (start : ℚ) : List ℚ → RippleState → RippleState
  | [], r => r
  | now :: rest, r =>
      let progress := (now - start) / 1000
      if progress < 1 then
        animateRipple start rest
          { r with scaleX := 1 + progress * 3, scaleY := 1 + progress * 3,
                   scaleZ := 1, opacity := 1 - progress }
      else
        { r with inScene := false, geometryDisposed := true,
                 materialDisposed := true }

/-- The branch body of the wheel handler's debounced callback: step +1 while
below 4 on scroll-down, −1 while above 0 on scroll-up, otherwise nothing
(clamped, no wraparound).  The step is performed via `navigateToSection`. -/
def wheelStep (cur : Int) (deltaY : ℚ) : Int :=
  if 0 < deltaY ∧ cur < 4 then cur + 1
  else if deltaY < 0 ∧ 0 < cur then cur - 1
  else cur

/-- The `wheel` listener's timer protocol: each event does
`clearTimeout(scrollTimeout)` then `setTimeout(…, 100)`.  Processing the
chronological list of `(time, deltaY)` events, a pending timer fires only if
it expires (`fireTime ≤ t`) before the next event clears it; the last pending
timer always fires once the events stop.  The result lists the `deltaY`
values whose callbacks actually ran. -/
def wheelRun : List (ℚ × ℚ) → Option (ℚ × ℚ) → List ℚ
  | [], none => []
  | [], some pending => [pending.2]
  | e :: rest, none => wheelRun rest (some (e.1 + 100, e.2))
  | e :: rest, some pending =>
      if pending.1 ≤ e.1 then pending.2 :: wheelRun rest (some (e.1 + 100, e.2))
      else wheelRun rest (some (e.1 + 100, e.2))

/-- Debounced callbacks fired for a burst of wheel events, no timer pending
initially. -/
def wheelFired (events : List (ℚ × ℚ)) : List ℚ :=
  wheelRun events none

/-- The section index after the fired wheel callbacks have each run their
clamped step. -/
def applyWheel (cur : Int) (events : List (ℚ × ℚ)) : Int :=
  (wheelFired events).foldl wheelStep cur

/-! ### Helper lemmas -/

theorem map_scale_replicate {l : List Obj} {v : Vec3} (h : ∀ o ∈ l, o.scale = v) :
    l.map Obj.scale = List.replicate l.length v := by
  induction l with
  | nil => rfl
  | cons a t ih =>
      have ha := h a (List.mem_cons_self a t)
      have ht := ih fun o ho => h o (List.mem_cons_of_mem a ho)
      simp [ha, ht, List.replicate_succ]

theorem map_hide_scale (l : List Obj) :
    (l.map hideObj).map Obj.scale = List.replicate l.length ⟨0, 0, 0⟩ := by
  have h : ∀ o ∈ l.map hideObj, o.scale = (⟨0, 0, 0⟩ : Vec3) := by
    intro o ho
    obtain ⟨a, _, rfl⟩ := List.mem_map.1 ho
    rfl
  simpa using map_scale_replicate h

theorem map_show_scale (l : List Obj) :
    (l.map showObj).map Obj.scale = List.replicate l.length ⟨1, 1, 1⟩ := by
  have h : ∀ o ∈ l.map showObj, o.scale = (⟨1, 1, 1⟩ : Vec3) := by
    intro o ho
    obtain ⟨a, _, rfl⟩ := List.mem_map.1 ho
    rfl
  simpa using map_scale_replicate h

theorem scale_updateHeroObj (e : ℝ) (i : ℕ) (o : Obj) :
    (updateHeroObj e i o).scale = o.scale := by
  unfold updateHeroObj
  split_ifs <;> rfl

theorem scale_updateAboutObj (e : ℝ) (o : Obj) :
    (updateAboutObj e o).scale = o.scale := by
  rcases h : o.floatOffset with _ | v <;> simp [updateAboutObj, h]

theorem scale_updateProjectsObj (e : ℝ) (o : Obj) :
    (updateProjectsObj e o).scale = o.scale := by
  rcases h : o.hoverY with _ | v <;> simp [updateProjectsObj, h]

theorem scale_updateSkillsObj (e : ℝ) (o : Obj) :
    (updateSkillsObj e o).scale = o.scale := by
  rcases h : o.orbitTag with _ | v <;> simp [updateSkillsObj, h]

theorem map_scale_mapWithIndex :
    ∀ (l : List Obj) (f : ℕ → Obj → Obj), (∀ i o, (f i o).scale = o.scale) →
      (mapWithIndex f l).map Obj.scale = l.map Obj.scale := by
  intro l
  induction l with
  | nil => intro f _; rfl
  | cons a t ih =>
      intro f h
      simp [mapWithIndex, h 0 a, ih _ (fun i o => h (i + 1) o)]

theorem map_scale_map_of_preserving (g : Obj → Obj) (h : ∀ o, (g o).scale = o.scale) :
    ∀ l : List Obj, (l.map g).map Obj.scale = l.map Obj.scale := by
  intro l
  induction l with
  | nil => rfl
  | cons a t ih => simp [h a, ih]

theorem cameraUpdate_at_rest (c : CameraState) (hx : c.mousePosX = 0)
    (hy : c.mousePosY = 0) : cameraUpdate c = c := by
  cases c with
  | mk p t mx my =>
      cases p with
      | mk px py pz =>
          simp only at hx hy
          subst hx
          subst hy
          simp [cameraUpdate]

theorem modifyAt_getElem_self :
    ∀ (l : List Obj) (i : ℕ) (f : Obj → Obj), (modifyAt l i f)[i]? = l[i]?.map f := by
  intro l
  induction l with
  | nil => intro i f; cases i <;> simp [modifyAt]
  | cons a t ih =>
      intro i f
      cases i with
      | zero => simp [modifyAt]
      | succ n => simp [modifyAt, ih]

theorem modifyAt_getElem_ne :
    ∀ (l : List Obj) (i j : ℕ) (f : Obj → Obj), j ≠ i →
      (modifyAt l i f)[j]? = l[j]? := by
  intro l
  induction l with
  | nil => intro i j f _; cases i <;> simp [modifyAt]
  | cons a t ih =>
      intro i j f hne
      cases i with
      | zero =>
          cases j with
          | zero => exact absurd rfl hne
          | succ m => simp [modifyAt]
      | succ n =>
          cases j with
          | zero => simp [modifyAt]
          | succ m => simp [modifyAt, ih n m f (fun h => hne (by simp [h]))]

/-! ### Claim theorems -/

/-- C10: immediately after `createAllSections()` and before any navigation,
every primitive in all five sections has scale `(1,1,1)` (the three.js mesh
default — none of the creation methods touches `scale`), and
`currentSection` is still 0; visibility scaling only starts with the first
`updateActiveSection` call. -/
theorem all_primitives_start_at_unit_scale :
    initialObjects.hero.map Obj.scale =
        List.replicate initialObjects.hero.length ⟨1, 1, 1⟩ ∧
    initialObjects.about.map Obj.scale =
        List.replicate initialObjects.about.length ⟨1, 1, 1⟩ ∧
    initialObjects.projects.map Obj.scale =
        List.replicate initialObjects.projects.length ⟨1, 1, 1⟩ ∧
    initialObjects.skills.map Obj.scale =
        List.replicate initialObjects.skills.length ⟨1, 1, 1⟩ ∧
    initialObjects.contact.map Obj.scale =
        List.replicate initialObjects.contact.length ⟨1, 1, 1⟩ ∧
    initialObjects.currentSection = 0 := by
  refine ⟨map_scale_replicate ?_, map_scale_replicate ?_, map_scale_replicate ?_,
          map_scale_replicate ?_, map_scale_replicate ?_, rfl⟩
  · intro o ho
    simp only [initialObjects, heroObjs, List.mem_append, List.mem_singleton,
      List.mem_map, List.mem_range] at ho
    rcases ho with (rfl | ⟨i, _, rfl⟩) | rfl <;> rfl
  · intro o ho
    simp only [initialObjects, aboutObjs] at ho
    fin_cases ho <;> rfl
  · intro o ho
    simp only [initialObjects, projectsObjs] at ho
    fin_cases ho <;> rfl
  · intro o ho
    simp only [initialObjects, skillsObjs, List.mem_append, List.mem_singleton,
      List.mem_map, List.mem_range] at ho
    rcases ho with ((⟨i, _, rfl⟩ | ⟨i, _, rfl⟩) | ⟨i, _, rfl⟩) | rfl <;> rfl
  · intro o ho
    simp only [initialObjects, contactObjs, List.mem_append, List.mem_singleton,
      List.mem_map, List.mem_range] at ho
    rcases ho with ⟨i, _, rfl⟩ | rfl <;> rfl

/-- C6: for a valid section index, a second `navigateToSection(i)` right
after a first one hits the `sectionIndex === this.currentSection` guard and
returns without touching any coordinator state: index, markup flags, camera
and object state are all unchanged, and nothing is thrown. -/
theorem navigateToSection_idempotent (s : AppState) (i : Int)
    (h0 : 0 ≤ i) (h4 : i ≤ 4) :
    navigateToSection (navigateToSection s i).1 i = ((navigateToSection s i).1, false) := by
  have hcur : (navigateToSection s i).1.currentSection = i := by
    simp only [navigateToSection]
    split_ifs with h
    · exact h.symm
    · rfl
  have key : ∀ t : AppState, t.currentSection = i → navigateToSection t i = (t, false) := by
    intro t ht
    unfold navigateToSection
    rw [if_pos ht.symm]
  exact key _ hcur

/-- Witness for C6 at the concrete initial state and section 2. -/
theorem navigateToSection_idempotent_witness :
    (0 : Int) ≤ 2 ∧ (2 : Int) ≤ 4 ∧
      navigateToSection (navigateToSection initApp 2).1 2 =
        ((navigateToSection initApp 2).1, false) :=
  ⟨by norm_num, by norm_num,
   navigateToSection_idempotent initApp 2 (by norm_num) (by norm_num)⟩

/-- C4 counterexample: the normalized pointer coordinates are not clamped.
At `innerWidth = 100` a (synthetic) `mousemove` with `clientX = 200` stores
`x = 3`, outside `[-1, 1]`, so the claim is false for arbitrary event client
coordinates. -/
theorem normalized_mouse_unclamped_escapes_range :
    (normalizedMouse 200 0 100 100).1 = 3 ∧
    ¬(normalizedMouse 200 0 100 100).1 ≤ 1 := by
  constructor <;> norm_num [normalizedMouse]

/-- C4 (amended): the stored normalized coordinates are the pure affine image
of the client coordinates, with no clamping; they lie in `[-1, 1]` exactly
when the client coordinates lie inside the viewport
(`0 ≤ clientX ≤ innerWidth`, `0 ≤ clientY ≤ innerHeight`), which is where
every real pointer/touch event lives. -/
theorem normalized_mouse_in_range_for_viewport_coords
    (cx cy w h : ℝ) (hw : 0 < w) (hh : 0 < h)
    (hcx0 : 0 ≤ cx) (hcxw : cx ≤ w) (hcy0 : 0 ≤ cy) (hcyh : cy ≤ h) :
    -1 ≤ (normalizedMouse cx cy w h).1 ∧ (normalizedMouse cx cy w h).1 ≤ 1 ∧
    -1 ≤ (normalizedMouse cx cy w h).2 ∧ (normalizedMouse cx cy w h).2 ≤ 1 := by
  have h1 : 0 ≤ cx / w := div_nonneg hcx0 hw.le
  have h2 : cx / w ≤ 1 := (div_le_one hw).2 hcxw
  have h3 : 0 ≤ cy / h := div_nonneg hcy0 hh.le
  have h4 : cy / h ≤ 1 := (div_le_one hh).2 hcyh
  refine ⟨?_, ?_, ?_, ?_⟩ <;> simp only [normalizedMouse] <;> linarith

/-- Witness for the amended C4 at a concrete in-viewport event. -/
theorem normalized_mouse_in_range_witness :
    (0 : ℝ) < 100 ∧ (0 : ℝ) ≤ 30 ∧ (30 : ℝ) ≤ 100 ∧ (0 : ℝ) ≤ 40 ∧ (40 : ℝ) ≤ 100 ∧
    (-1 ≤ (normalizedMouse 30 40 100 100).1 ∧ (normalizedMouse 30 40 100 100).1 ≤ 1 ∧
     -1 ≤ (normalizedMouse 30 40 100 100).2 ∧ (normalizedMouse 30 40 100 100).2 ≤ 1) :=
  ⟨by norm_num, by norm_num, by norm_num, by norm_num, by norm_num,
   normalized_mouse_in_range_for_viewport_coords 30 40 100 100 (by norm_num)
     (by norm_num) (by norm_num) (by norm_num) (by norm_num) (by norm_num)⟩

/-- C7: orbit motion is recomputed absolutely from the stored phase.  For a
hero orbit sphere (forEach index 1–8) and for any orbit-tagged skills orb,
running the per-frame update twice at the same elapsed time yields the same
position (no cumulative drift), and the position is exactly
`(cos(angle + elapsed·speed)·radius, f(elapsed), sin(angle + elapsed·speed)·radius)`
computed from the stored `userData.angle` (hero speed is the constant 0.5
and `y = sin(elapsed·0.5 + index)·0.5`; a skills orb's `y` is never
rewritten). -/
theorem orbit_update_pure_in_elapsed (e : ℝ) (i : ℕ) (o p : Obj)
    (h1 : 1 ≤ i) (h2 : i ≤ 8) (h3 : p.orbitTag.isSome) :
    (updateHeroObj e i (updateHeroObj e i o)).position = (updateHeroObj e i o).position ∧
    (updateHeroObj e i o).position =
      ⟨Real.cos (o.angle.getD 0 + e * 0.5) * o.radius.getD 0,
       Real.sin (e * 0.5 + (i : ℝ)) * 0.5,
       Real.sin (o.angle.getD 0 + e * 0.5) * o.radius.getD 0⟩ ∧
    (updateSkillsObj e (updateSkillsObj e p)).position = (updateSkillsObj e p).position ∧
    (updateSkillsObj e p).position =
      ⟨Real.cos (p.angle.getD 0 + e * p.speed.getD 0) * p.radius.getD 0,
       p.position.y,
       Real.sin (p.angle.getD 0 + e * p.speed.getD 0) * p.radius.getD 0⟩ := by
  have hi0 : i ≠ 0 := by omega
  obtain ⟨tag, htag⟩ := Option.isSome_iff_exists.1 h3
  refine ⟨?_, ?_, ?_, ?_⟩
  · simp [updateHeroObj, hi0, h2]
  · simp [updateHeroObj, hi0, h2]
  · simp [updateSkillsObj, htag]
  · simp [updateSkillsObj, htag]

/-- Witness for C7: the first hero orbit sphere and the first skills orb at
elapsed time 0. -/
theorem orbit_update_pure_witness :
    1 ≤ 1 ∧ 1 ≤ 8 ∧ (skillOrb 0 0).orbitTag.isSome ∧
    ((updateHeroObj 0 1 (updateHeroObj 0 1 (heroSphere 1))).position =
        (updateHeroObj 0 1 (heroSphere 1)).position ∧
     (updateHeroObj 0 1 (heroSphere 1)).position =
        ⟨Real.cos ((heroSphere 1).angle.getD 0 + 0 * 0.5) * (heroSphere 1).radius.getD 0,
         Real.sin (0 * 0.5 + ((1 : ℕ) : ℝ)) * 0.5,
         Real.sin ((heroSphere 1).angle.getD 0 + 0 * 0.5) * (heroSphere 1).radius.getD 0⟩ ∧
     (updateSkillsObj 0 (updateSkillsObj 0 (skillOrb 0 0))).position =
        (updateSkillsObj 0 (skillOrb 0 0)).position ∧
     (updateSkillsObj 0 (skillOrb 0 0)).position =
        ⟨Real.cos ((skillOrb 0 0).angle.getD 0 + 0 * (skillOrb 0 0).speed.getD 0) *
            (skillOrb 0 0).radius.getD 0,
         (skillOrb 0 0).position.y,
         Real.sin ((skillOrb 0 0).angle.getD 0 + 0 * (skillOrb 0 0).speed.getD 0) *
            (skillOrb 0 0).radius.getD 0⟩) :=
  ⟨by norm_num, by norm_num, by simp [skillOrb],
   orbit_update_pure_in_elapsed 0 1 (heroSphere 1) (skillOrb 0 0)
     (by norm_num) (by norm_num) (by simp [skillOrb])⟩

/-- C8: two wheel events inside the 100ms debounce window fire exactly one
callback — the first event's timer is cleared by the second's
`clearTimeout`, the second's expires — so exactly one clamped ±1 step
(via `navigateToSection`) runs, never two.  The step stays within 0–4. -/
theorem wheel_debounce_single_step (t1 t2 d1 d2 : ℚ) (cur : Int)
    (hle : t1 ≤ t2) (hgap : t2 - t1 < 100) (hc0 : 0 ≤ cur) (hc4 : cur ≤ 4) :
    wheelFired [(t1, d1), (t2, d2)] = [d2] ∧
    applyWheel cur [(t1, d1), (t2, d2)] = wheelStep cur d2 ∧
    (wheelStep cur d2 = cur + 1 ∨ wheelStep cur d2 = cur - 1 ∨ wheelStep cur d2 = cur) ∧
    0 ≤ wheelStep cur d2 ∧ wheelStep cur d2 ≤ 4 := by
  have hnot : ¬ t1 + 100 ≤ t2 := by linarith
  have hfired : wheelFired [(t1, d1), (t2, d2)] = [d2] := by
    simp [wheelFired, wheelRun, hnot]
  refine ⟨hfired, by simp [applyWheel, hfired], ?_, ?_, ?_⟩
  · unfold wheelStep
    split_ifs <;> simp
  · unfold wheelStep
    split_ifs with ha hb
    · omega
    · have := hb.2
      omega
    · exact hc0
  · unfold wheelStep
    split_ifs with ha hb
    · have := ha.2
      omega
    · omega
    · exact hc4

/-- Witness for C8: two scroll-down events 50ms apart starting from Hero. -/
theorem wheel_debounce_single_step_witness :
    (0 : ℚ) ≤ 50 ∧ (50 : ℚ) - 0 < 100 ∧ (0 : Int) ≤ 0 ∧ (0 : Int) ≤ 4 ∧
    (wheelFired [((0 : ℚ), (3 : ℚ)), (50, 3)] = [3] ∧
     applyWheel 0 [((0 : ℚ), (3 : ℚ)), (50, 3)] = wheelStep 0 3 ∧
     (wheelStep 0 3 = 0 + 1 ∨ wheelStep 0 3 = 0 - 1 ∨ wheelStep 0 3 = 0) ∧
     0 ≤ wheelStep 0 3 ∧ wheelStep 0 3 ≤ 4) :=
  ⟨by norm_num, by norm_num, by norm_num, by norm_num,
   wheel_debounce_single_step 0 50 3 3 0 (by norm_num) (by norm_num)
     (by norm_num) (by norm_num)⟩

theorem animateRipple_disposes :
    ∀ (frames : List ℚ) (start : ℚ) (r : RippleState),
      (∃ u ∈ frames, start + 1000 ≤ u) →
      (animateRipple start frames r).inScene = false ∧
      (animateRipple start frames r).geometryDisposed = true ∧
      (animateRipple start frames r).materialDisposed = true := by
  intro frames
  induction frames with
  | nil =>
      intro start r h
      simp at h
  | cons t rest ih =>
      intro start r h
      by_cases hc : (t - start) / 1000 < 1
      · have hrest : ∃ u ∈ rest, start + 1000 ≤ u := by
          rcases h with ⟨u, hu, hule⟩
          rcases List.mem_cons.1 hu with rfl | hmem
          · exfalso
            have h1 : (1 : ℚ) ≤ (u - start) / 1000 := by
              rw [le_div_iff₀ (by norm_num)]
              linarith
            linarith
          · exact ⟨u, hmem, hule⟩
        simpa [animateRipple, hc] using ih start _ hrest
      · simp [animateRipple, hc]

/-- C9: a click on a primitive spawns a ripple at the clicked primitive's
position with live geometry and material; once the wall-clock frame times
reach `startTime + 1000` (the fixed 1000ms lifetime) the ripple is removed
from the scene, both resources are disposed, and the ripple's resource count
is back to zero. -/
theorem ripple_lifecycle_disposes (o : Obj) (start : ℚ) (frames : List ℚ)
    (h : ∃ u ∈ frames, start + 1000 ≤ u) :
    (clickRipple o).position = o.position ∧
    (clickRipple o).inScene = true ∧
    rippleResources (clickRipple o) = 2 ∧
    (animateRipple start frames (clickRipple o)).inScene = false ∧
    rippleResources (animateRipple start frames (clickRipple o)) = 0 := by
  obtain ⟨h1, h2, h3⟩ := animateRipple_disposes frames start (clickRipple o) h
  exact ⟨rfl, rfl, rfl, h1, by simp [rippleResources, h2, h3]⟩

/-- Witness for C9: a click on the contact envelope, frames at 16ms and
1005ms wall-clock. -/
theorem ripple_lifecycle_witness :
    (∃ u ∈ [(16 : ℚ), 1005], (0 : ℚ) + 1000 ≤ u) ∧
    ((clickRipple contactEnvelope).position = contactEnvelope.position ∧
     (clickRipple contactEnvelope).inScene = true ∧
     rippleResources (clickRipple contactEnvelope) = 2 ∧
     (animateRipple 0 [16, 1005] (clickRipple contactEnvelope)).inScene = false ∧
     rippleResources (animateRipple 0 [16, 1005] (clickRipple contactEnvelope)) = 0) :=
  ⟨⟨1005, by simp, by norm_num⟩,
   ripple_lifecycle_disposes contactEnvelope 0 [16, 1005] ⟨1005, by simp, by norm_num⟩⟩

theorem jsOrZero_some (v : ℝ) : jsOrZero (some v) = v := by
  show (if v = 0 then 0 else v) = v
  split_ifs with h
  · exact h.symm
  · rfl

/-- C5 counterexample: for a primitive whose material has no emissive
intensity (the hero wireframe pyramid's `MeshBasicMaterial`), hover snapshots
`undefined || 0 = 0`, and the subsequent clear-hover assigns that 0 to
`material.emissiveIntensity` — a property that did not exist before the
hover — so the pre-hover value (`undefined`) is not restored. -/
theorem hover_round_trip_defines_missing_emissive :
    heroPyramid.emissiveIntensity = none ∧
    ((clearHover (handleObjectHover ⟨[heroPyramid], none⟩ 0)).objs[0]?.map
        Obj.emissiveIntensity) = some (some 0) ∧
    ((clearHover (handleObjectHover ⟨[heroPyramid], none⟩ 0)).objs[0]?.map
        Obj.emissiveIntensity) ≠ some heroPyramid.emissiveIntensity := by
  refine ⟨rfl, ?_, ?_⟩ <;>
    simp [clearHover, handleObjectHover, highlightObj, restoreObj, modifyAt,
      jsOrZero, heroPyramid]

/-- C5 (amended): for every primitive whose material does define an emissive
intensity, the hover round-trip is an exact identity on it — whether the
hover ends by a no-hit `clearHover` or by hovering a different primitive
(which clears the previous hover first).  For materials without the
property, clear-hover instead creates it with value 0. -/
theorem hover_round_trip_restores_defined_emissive
    (l : List Obj) (i j : ℕ) (o : Obj) (v : ℝ)
    (hget : l[i]? = some o) (hv : o.emissiveIntensity = some v) (hij : j ≠ i) :
    ((clearHover (handleObjectHover ⟨l, none⟩ i)).objs[i]?.map Obj.emissiveIntensity)
        = some (some v) ∧
    ((handleObjectHover (handleObjectHover ⟨l, none⟩ i) j).objs[i]?.map
        Obj.emissiveIntensity) = some (some v) := by
  have hhover : handleObjectHover ⟨l, none⟩ i =
      ⟨modifyAt l i highlightObj, some i⟩ := by
    simp [handleObjectHover, clearHover]
  have hrestored : ∀ l2 : List Obj, l2 = modifyAt (modifyAt l i highlightObj) i restoreObj →
      l2[i]?.map Obj.emissiveIntensity = some (some v) := by
    intro l2 hl2
    subst hl2
    rw [modifyAt_getElem_self, modifyAt_getElem_self, hget]
    have hfinal : restoreObj (highlightObj o) =
        { highlightObj o with emissiveIntensity := some v } := by
      unfold restoreObj highlightObj
      rw [hv]
      simp [jsOrZero_some]
    simp [hfinal]
  constructor
  · rw [hhover]
    exact hrestored _ rfl
  · rw [hhover]
    have hne : (some i : Option ℕ) ≠ some j := by
      intro hcontra
      exact hij (Option.some_injective ℕ hcontra).symm
    have hstep : handleObjectHover ⟨modifyAt l i highlightObj, some i⟩ j =
        ⟨modifyAt (modifyAt (modifyAt l i highlightObj) i restoreObj) j highlightObj,
         some j⟩ := by
      simp [handleObjectHover, clearHover, hne]
    rw [hstep]
    simp only
    rw [modifyAt_getElem_ne _ _ _ _ (fun h => hij h.symm)]
    exact hrestored _ rfl

/-- Witness for the amended C5: hovering the first project card (emissive
intensity 0.2) and leaving it either way restores 0.2 exactly. -/
theorem hover_round_trip_witness :
    ([projectCard 0, projectCard 1][0]? = some (projectCard 0)) ∧
    ((projectCard 0).emissiveIntensity = some 0.2) ∧ ((1 : ℕ) ≠ 0) ∧
    (((clearHover (handleObjectHover ⟨[projectCard 0, projectCard 1], none⟩ 0)).objs[0]?.map
        Obj.emissiveIntensity) = some (some 0.2) ∧
     ((handleObjectHover (handleObjectHover ⟨[projectCard 0, projectCard 1], none⟩ 0) 1).objs[0]?.map
        Obj.emissiveIntensity) = some (some 0.2)) :=
  ⟨rfl, rfl, by norm_num,
   hover_round_trip_restores_defined_emissive [projectCard 0, projectCard 1] 0 1
     (projectCard 0) 0.2 rfl rfl (by norm_num)⟩

theorem posesGet_five : posesGet 5 = none := by
  rw [posesGet, if_pos (by norm_num)]
  apply List.getElem?_eq_none
  norm_num [sectionPositions]

/-- C1 (the code contradicts the claim): `navigateToSection(5)` from the
initial state is not a no-op.  Only the camera guard
(`if (!position) return`) holds: the coordinator still sets both
`currentSection` fields to the out-of-range index, rewrites every markup
flag, issues the scale-to-zero tween for every primitive of every section,
and then `updateActiveSection` throws a TypeError on
`this.objects[sectionNames[5]].forEach` (`sectionNames[5]` is undefined). -/
theorem navigate_out_of_range_mutates_and_throws :
    (navigateToSection initApp 5).2 = true ∧
    (navigateToSection initApp 5).1.currentSection = 5 ∧
    (navigateToSection initApp 5).1.objs.currentSection = 5 ∧
    initApp.currentSection = 0 ∧
    (navigateToSection initApp 5).1.markupActive = [false, false, false, false, false] ∧
    (navigateToSection initApp 5).1.objs.hero.map Obj.scale =
        List.replicate heroObjs.length ⟨0, 0, 0⟩ ∧
    (navigateToSection initApp 5).1.objs.about.map Obj.scale =
        List.replicate aboutObjs.length ⟨0, 0, 0⟩ ∧
    (navigateToSection initApp 5).1.objs.projects.map Obj.scale =
        List.replicate projectsObjs.length ⟨0, 0, 0⟩ ∧
    (navigateToSection initApp 5).1.objs.skills.map Obj.scale =
        List.replicate skillsObjs.length ⟨0, 0, 0⟩ ∧
    (navigateToSection initApp 5).1.objs.contact.map Obj.scale =
        List.replicate contactObjs.length ⟨0, 0, 0⟩ ∧
    (navigateToSection initApp 5).1.camera = initApp.camera := by
  have hnav : navigateToSection initApp 5 =
      ({ currentSection := 5, markupActive := updateMarkup 5,
         camera := initialCamera,
         objs := { hideAll initialObjects with currentSection := 5 } }, true) := by
    norm_num [navigateToSection, initApp, updateActiveSection, sectionListGet,
      moveToSection, posesGet_five]
  have hmark : updateMarkup 5 = [false, false, false, false, false] := by decide
  rw [hnav]
  refine ⟨rfl, rfl, rfl, rfl, hmark, ?_, ?_, ?_, ?_, ?_, rfl⟩ <;>
    · simp only [hideAll, initialObjects]
      exact map_hide_scale _

theorem appFrame_preserves_pose_scales (s : AppState)
    (hmx : s.camera.mousePosX = 0) (hmy : s.camera.mousePosY = 0) (e d : ℝ) :
    (appFrame e d s).camera = s.camera ∧
    (appFrame e d s).objs.hero.map Obj.scale = s.objs.hero.map Obj.scale ∧
    (appFrame e d s).objs.projects.map Obj.scale = s.objs.projects.map Obj.scale := by
  refine ⟨?_, ?_, ?_⟩
  · show cameraUpdate s.camera = s.camera
    exact cameraUpdate_at_rest _ hmx hmy
  · show (mapWithIndex (updateHeroObj e) s.objs.hero).map Obj.scale = _
    exact map_scale_mapWithIndex _ _ (fun i o => scale_updateHeroObj e i o)
  · show (s.objs.projects.map (updateProjectsObj e)).map Obj.scale = _
    exact map_scale_map_of_preserving _ (scale_updateProjectsObj e) _

theorem runFrames_pose_scales (frames : List (ℝ × ℝ)) :
    ∀ s : AppState, s.camera.mousePosX = 0 → s.camera.mousePosY = 0 →
      (runFrames frames s).camera = s.camera ∧
      (runFrames frames s).objs.hero.map Obj.scale = s.objs.hero.map Obj.scale ∧
      (runFrames frames s).objs.projects.map Obj.scale = s.objs.projects.map Obj.scale := by
  induction frames with
  | nil => intro s _ _; exact ⟨rfl, rfl, rfl⟩
  | cons f rest ih =>
      intro s hmx hmy
      obtain ⟨hc, hh, hp⟩ := appFrame_preserves_pose_scales s hmx hmy f.1 f.2
      have hmx2 : (appFrame f.1 f.2 s).camera.mousePosX = 0 := by rw [hc]; exact hmx
      have hmy2 : (appFrame f.1 f.2 s).camera.mousePosY = 0 := by rw [hc]; exact hmy
      obtain ⟨ic, ihh, ihp⟩ := ih (appFrame f.1 f.2 s) hmx2 hmy2
      have hrun : runFrames (f :: rest) s = runFrames rest (appFrame f.1 f.2 s) := rfl
      exact ⟨by rw [hrun, ic, hc], by rw [hrun, ihh, hh], by rw [hrun, ihp, hp]⟩

/-- C3: starting at Hero, navigating Hero→Projects→Hero with every gsap
transition run to completion, and then running any number of animation
frames with the pointer at rest, the camera pose equals the stored Hero
`CameraPose` exactly (position `(0,0,15)`, look-at `(0,0,0)` — stronger than
"within epsilon"), every Hero primitive is at scale 1 and every Projects
primitive at scale 0. -/
theorem hero_projects_hero_round_trip (frames : List (ℝ × ℝ)) :
    posesGet 0 = some ⟨⟨0, 0, 15⟩, ⟨0, 0, 0⟩⟩ ∧
    (runFrames frames
        (navigateToSection (navigateToSection initApp 2).1 0).1).camera.position =
      ⟨0, 0, 15⟩ ∧
    (runFrames frames
        (navigateToSection (navigateToSection initApp 2).1 0).1).camera.targetPosition =
      ⟨0, 0, 0⟩ ∧
    (runFrames frames
        (navigateToSection (navigateToSection initApp 2).1 0).1).objs.hero.map Obj.scale =
      List.replicate heroObjs.length ⟨1, 1, 1⟩ ∧
    (runFrames frames
        (navigateToSection (navigateToSection initApp 2).1 0).1).objs.projects.map Obj.scale =
      List.replicate projectsObjs.length ⟨0, 0, 0⟩ := by
  have hpose : posesGet 0 = some ⟨⟨0, 0, 15⟩, ⟨0, 0, 0⟩⟩ := by
    norm_num [posesGet, sectionPositions]
  have F1 : (navigateToSection (navigateToSection initApp 2).1 0).1.camera =
      ⟨⟨0, 0, 15⟩, ⟨0, 0, 0⟩, 0, 0⟩ := by
    norm_num [navigateToSection, initApp, updateActiveSection, sectionListGet,
      mapSection, hideAll, initialObjects, moveToSection, posesGet,
      sectionPositions, initialCamera]
  have F2 : (navigateToSection (navigateToSection initApp 2).1 0).1.objs.hero =
      ((heroObjs.map hideObj).map hideObj).map showObj := by
    norm_num [navigateToSection, initApp, updateActiveSection, sectionListGet,
      mapSection, hideAll, initialObjects, moveToSection, posesGet,
      sectionPositions, initialCamera]
  have F3 : (navigateToSection (navigateToSection initApp 2).1 0).1.objs.projects =
      ((projectsObjs.map hideObj).map showObj).map hideObj := by
    norm_num [navigateToSection, initApp, updateActiveSection, sectionListGet,
      mapSection, hideAll, initialObjects, moveToSection, posesGet,
      sectionPositions, initialCamera]
  obtain ⟨hc, hh, hp⟩ :=
    runFrames_pose_scales frames (navigateToSection (navigateToSection initApp 2).1 0).1
      (by rw [F1]) (by rw [F1])
  refine ⟨hpose, ?_, ?_, ?_, ?_⟩
  · rw [hc, F1]
  · rw [hc, F1]
  · rw [hh, F2, map_show_scale]
    simp
  · rw [hp, F3, map_hide_scale]
    simp

theorem contact_after_hide_pulse (t d : ℝ) (s : ObjectsState)
    (hcon : s.contact = contactObjs.map hideObj) :
    ∀ ob ∈ (objectsUpdate t d s).contact,
      (ob.delay.isSome → 0.8 ≤ ob.scale.x) ∧
      (ob.delay = none → ob.scale = ⟨0, 0, 0⟩) := by
  intro ob hob
  have hceq : (objectsUpdate t d s).contact =
      (contactObjs.map hideObj).map (updateContactObj t) := by
    show s.contact.map (updateContactObj t) = _
    rw [hcon]
  rw [hceq] at hob
  simp only [contactObjs, List.map_append, List.map_map, List.mem_append,
    List.mem_map, List.mem_range, List.map_cons, List.map_nil,
    List.mem_singleton, Function.comp] at hob
  rcases hob with ⟨k, _, rfl⟩ | rfl
  · constructor
    · intro _
      have hs := Real.neg_one_le_sin (t * 2 - (k : ℝ) * 0.2)
      show (0.8 : ℝ) ≤ (updateContactObj t (hideObj (contactRing k))).scale.x
      simp only [updateContactObj, hideObj, contactRing]
      linarith
    · intro hd
      exfalso
      simp [updateContactObj, hideObj, contactRing] at hd
  · constructor
    · intro hd
      exfalso
      simp [updateContactObj, hideObj, contactEnvelope] at hd
    · intro _
      simp [updateContactObj, hideObj, contactEnvelope]

theorem section_scales_zero_after_update (g : Obj → Obj)
    (hg : ∀ o, (g o).scale = o.scale) (base : List Obj) :
    ((base.map hideObj).map g).map Obj.scale = List.replicate base.length ⟨0, 0, 0⟩ := by
  rw [map_scale_map_of_preserving g hg, map_hide_scale]

theorem section_scales_one_after_update (g : Obj → Obj)
    (hg : ∀ o, (g o).scale = o.scale) (base : List Obj) :
    (((base.map hideObj).map showObj).map g).map Obj.scale =
      List.replicate base.length ⟨1, 1, 1⟩ := by
  rw [map_scale_map_of_preserving g hg, map_show_scale]
  simp

theorem hero_scales_zero_after_update (e : ℝ) (base : List Obj) :
    (mapWithIndex (updateHeroObj e) (base.map hideObj)).map Obj.scale =
      List.replicate base.length ⟨0, 0, 0⟩ := by
  rw [map_scale_mapWithIndex _ _ (fun i o => scale_updateHeroObj e i o), map_hide_scale]

/-- C2 counterexample: after navigating from Hero to About (section 1) and
running one animation frame at elapsed time 0, the first Contact wave ring —
a primitive of a non-active section — is at scale 1, not 0: the per-frame
animator rewrites the pulse rings' scale regardless of the active section,
so "every primitive of a non-active section has scale zero" is false. -/
theorem contact_ring_pulses_while_inactive :
    (navigateToSection initApp 1).1.objs.currentSection = 1 ∧
    updateContactObj 0 (hideObj (contactRing 0)) ∈
      (objectsUpdate 0 0 (navigateToSection initApp 1).1.objs).contact ∧
    (updateContactObj 0 (hideObj (contactRing 0))).scale.x = 1 ∧
    (updateContactObj 0 (hideObj (contactRing 0))).scale.x ≠ 0 := by
  have hcontact : (navigateToSection initApp 1).1.objs.contact =
      contactObjs.map hideObj := by
    norm_num [navigateToSection, initApp, updateActiveSection, sectionListGet,
      mapSection, hideAll, initialObjects]
  have hscale : (updateContactObj 0 (hideObj (contactRing 0))).scale.x = 1 := by
    norm_num [updateContactObj, hideObj, contactRing, Real.sin_zero]
  refine ⟨?_, ?_, hscale, by rw [hscale]; norm_num⟩
  · norm_num [navigateToSection, initApp, updateActiveSection, sectionListGet,
      mapSection, hideAll, initialObjects]
  · have hceq : (objectsUpdate 0 0 (navigateToSection initApp 1).1.objs).contact =
        (contactObjs.map hideObj).map (updateContactObj 0) := by
      show (navigateToSection initApp 1).1.objs.contact.map (updateContactObj 0) = _
      rw [hcontact]
    rw [hceq]
    exact List.mem_map_of_mem _ (List.mem_map_of_mem _
      (List.mem_append_left _ (List.mem_map_of_mem _ (List.mem_range.mpr (by norm_num)))))

/-- C2 (amended): the interaction ray cast is restricted to the active
section's primitive list (`objects[sectionNames[currentSection]]`), so
inactive sections never receive ray casts.  But inactive sections'
primitives are not all at scale zero.  After a completed navigation from
Hero to section `i ∈ {1,2,3}` and any animation frame: the non-active
sections' primitives are at scale 0 and the active section's at scale 1 —
except the Contact pulse rings, whose scale the per-frame animator rewrites
to `1 + sin(2·elapsed − delay)·0.2 ≥ 0.8` every frame even though Contact is
inactive (only Contact's envelope stays at 0).  Before the first navigation
all primitives are at scale 1.  -/
theorem active_section_raycast_and_hidden_scales (i : Int) (t d : ℝ)
    (hlo : 1 ≤ i) (hhi : i ≤ 3) :
    checkIntersectionTargets ((navigateToSection initApp i).1.objs) =
        sectionListGet ((navigateToSection initApp i).1.objs) i ∧
    (sectionListGet ((navigateToSection initApp i).1.objs) i).isSome = true ∧
    (∀ ob ∈ (objectsUpdate t d (navigateToSection initApp i).1.objs).contact,
        (ob.delay.isSome → 0.8 ≤ ob.scale.x) ∧
        (ob.delay = none → ob.scale = ⟨0, 0, 0⟩)) ∧
    (objectsUpdate t d (navigateToSection initApp i).1.objs).hero.map Obj.scale =
        List.replicate heroObjs.length ⟨0, 0, 0⟩ ∧
    (i ≠ 1 → (objectsUpdate t d (navigateToSection initApp i).1.objs).about.map Obj.scale =
        List.replicate aboutObjs.length ⟨0, 0, 0⟩) ∧
    (i ≠ 2 → (objectsUpdate t d (navigateToSection initApp i).1.objs).projects.map Obj.scale =
        List.replicate projectsObjs.length ⟨0, 0, 0⟩) ∧
    (i ≠ 3 → (objectsUpdate t d (navigateToSection initApp i).1.objs).skills.map Obj.scale =
        List.replicate skillsObjs.length ⟨0, 0, 0⟩) ∧
    (i = 1 → (objectsUpdate t d (navigateToSection initApp i).1.objs).about.map Obj.scale =
        List.replicate aboutObjs.length ⟨1, 1, 1⟩) ∧
    (i = 2 → (objectsUpdate t d (navigateToSection initApp i).1.objs).projects.map Obj.scale =
        List.replicate projectsObjs.length ⟨1, 1, 1⟩) ∧
    (i = 3 → (objectsUpdate t d (navigateToSection initApp i).1.objs).skills.map Obj.scale =
        List.replicate skillsObjs.length ⟨1, 1, 1⟩) := by
  interval_cases i
  · -- i = 1: About active
    have hobjs : (navigateToSection initApp 1).1.objs =
        { hero := heroObjs.map hideObj,
          about := (aboutObjs.map hideObj).map showObj,
          projects := projectsObjs.map hideObj,
          skills := skillsObjs.map hideObj,
          contact := contactObjs.map hideObj,
          currentSection := 1 } := by
      norm_num [navigateToSection, initApp, updateActiveSection, sectionListGet,
        mapSection, hideAll, initialObjects]
    refine ⟨?_, ?_, ?_, ?_, ?_, ?_, ?_, ?_, ?_, ?_⟩
    · rw [hobjs]
      rfl
    · rw [hobjs]
      norm_num [sectionListGet]
    · exact contact_after_hide_pulse t d _ (by rw [hobjs])
    · rw [hobjs]
      exact hero_scales_zero_after_update t heroObjs
    · intro h
      exact absurd rfl h
    · intro _
      rw [hobjs]
      exact section_scales_zero_after_update _ (scale_updateProjectsObj t) projectsObjs
    · intro _
      rw [hobjs]
      exact section_scales_zero_after_update _ (scale_updateSkillsObj t) skillsObjs
    · intro _
      rw [hobjs]
      exact section_scales_one_after_update _ (scale_updateAboutObj t) aboutObjs
    · intro h
      exact absurd h (by norm_num)
    · intro h
      exact absurd h (by norm_num)
  · -- i = 2: Projects active
    have hobjs : (navigateToSection initApp 2).1.objs =
        { hero := heroObjs.map hideObj,
          about := aboutObjs.map hideObj,
          projects := (projectsObjs.map hideObj).map showObj,
          skills := skillsObjs.map hideObj,
          contact := contactObjs.map hideObj,
          currentSection := 2 } := by
      norm_num [navigateToSection, initApp, updateActiveSection, sectionListGet,
        mapSection, hideAll, initialObjects]
    refine ⟨?_, ?_, ?_, ?_, ?_, ?_, ?_, ?_, ?_, ?_⟩
    · rw [hobjs]
      rfl
    · rw [hobjs]
      norm_num [sectionListGet]
    · exact contact_after_hide_pulse t d _ (by rw [hobjs])
    · rw [hobjs]
      exact hero_scales_zero_after_update t heroObjs
    · intro _
      rw [hobjs]
      exact section_scales_zero_after_update _ (scale_updateAboutObj t) aboutObjs
    · intro h
      exact absurd rfl h
    · intro _
      rw [hobjs]
      exact section_scales_zero_after_update _ (scale_updateSkillsObj t) skillsObjs
    · intro h
      exact absurd h (by norm_num)
    · intro _
      rw [hobjs]
      exact section_scales_one_after_update _ (scale_updateProjectsObj t) projectsObjs
    · intro h
      exact absurd h (by norm_num)
  · -- i = 3: Skills active
    have hobjs : (navigateToSection initApp 3).1.objs =
        { hero := heroObjs.map hideObj,
          about := aboutObjs.map hideObj,
          projects := projectsObjs.map hideObj,
          skills := (skillsObjs.map hideObj).map showObj,
          contact := contactObjs.map hideObj,
          currentSection := 3 } := by
      norm_num [navigateToSection, initApp, updateActiveSection, sectionListGet,
        mapSection, hideAll, initialObjects]
    refine ⟨?_, ?_, ?_, ?_, ?_, ?_, ?_, ?_, ?_, ?_⟩
    · rw [hobjs]
      rfl
    · rw [hobjs]
      norm_num [sectionListGet]
    · exact contact_after_hide_pulse t d _ (by rw [hobjs])
    · rw [hobjs]
      exact hero_scales_zero_after_update t heroObjs
    · intro _
      rw [hobjs]
      exact section_scales_zero_after_update _ (scale_updateAboutObj t) aboutObjs
    · intro _
      rw [hobjs]
      exact section_scales_zero_after_update _ (scale_updateProjectsObj t) projectsObjs
    · intro h
      exact absurd rfl h
    · intro h
      exact absurd h (by norm_num)
    · intro h
      exact absurd h (by norm_num)
    · intro _
      rw [hobjs]
      exact section_scales_one_after_update _ (scale_updateSkillsObj t) skillsObjs

/-- Witness for the amended C2: navigation to About, frame at elapsed 0. -/
theorem active_section_raycast_witness :
    (1 : Int) ≤ 1 ∧ (1 : Int) ≤ 3 ∧
    (checkIntersectionTargets ((navigateToSection initApp 1).1.objs) =
        sectionListGet ((navigateToSection initApp 1).1.objs) 1 ∧
     (sectionListGet ((navigateToSection initApp 1).1.objs) 1).isSome = true ∧
     (∀ ob ∈ (objectsUpdate 0 0 (navigateToSection initApp 1).1.objs).contact,
        (ob.delay.isSome → 0.8 ≤ ob.scale.x) ∧
        (ob.delay = none → ob.scale = ⟨0, 0, 0⟩)) ∧
     (objectsUpdate 0 0 (navigateToSection initApp 1).1.objs).hero.map Obj.scale =
        List.replicate heroObjs.length ⟨0, 0, 0⟩ ∧
     ((1 : Int) ≠ 1 → (objectsUpdate 0 0 (navigateToSection initApp 1).1.objs).about.map Obj.scale =
        List.replicate aboutObjs.length ⟨0, 0, 0⟩) ∧
     ((1 : Int) ≠ 2 → (objectsUpdate 0 0 (navigateToSection initApp 1).1.objs).projects.map Obj.scale =
        List.replicate projectsObjs.length ⟨0, 0, 0⟩) ∧
     ((1 : Int) ≠ 3 → (objectsUpdate 0 0 (navigateToSection initApp 1).1.objs).skills.map Obj.scale =
        List.replicate skillsObjs.length ⟨0, 0, 0⟩) ∧
     ((1 : Int) = 1 → (objectsUpdate 0 0 (navigateToSection initApp 1).1.objs).about.map Obj.scale =
        List.replicate aboutObjs.length ⟨1, 1, 1⟩) ∧
     ((1 : Int) = 2 → (objectsUpdate 0 0 (navigateToSection initApp 1).1.objs).projects.map Obj.scale =
        List.replicate projectsObjs.length ⟨1, 1, 1⟩) ∧
     ((1 : Int) = 3 → (objectsUpdate 0 0 (navigateToSection initApp 1).1.objs).skills.map Obj.scale =
        List.replicate skillsObjs.length ⟨1, 1, 1⟩)) :=
  ⟨by norm_num, by norm_num,
   active_section_raycast_and_hidden_scales 1 0 0 (by norm_num) (by norm_num)⟩

end Portfolio
